import Mathlib

/-!
# Verification of the Tortoise ORM user-database adapter

A shallow embedding of `fastapi_users/db/tortoise.py`.  The backing
relational store is modelled as an explicit state (a list of user rows and
a list of external-identity / OAuth-account rows carrying a foreign key to
their owning user).  Each adapter operation becomes a pure function on that
state; ORM calls that can raise `DoesNotExist` / `MultipleObjectsReturned`
return `Except`.
-/

namespace FastAPIUsers

/-- One OAuth account as it appears inside the pydantic user model
(the elements of `user.dict()["oauth_accounts"]`). -/
structure OAuthAccount where
  id : Nat
  oauth_name : String
  access_token : String
  expires_at : Option Int
  refresh_token : Option String
  account_id : String
  account_email : String
deriving DecidableEq, Repr

/-- The pydantic user model `UD` handed to the adapter.
`oauth_accounts = none` models a model without that field
(`user_dict.pop("oauth_accounts", None)` yields `None`). -/
structure UserRecord where
  id : Nat
  email : String
  hashed_password : String
  is_active : Bool
  is_superuser : Bool
  is_verified : Bool
  username : String
  oauth_accounts : Option (List OAuthAccount)
deriving DecidableEq, Repr

/-- A stored row of `TortoiseBaseUserModel`. -/
structure UserRow where
  id : Nat
  email : String
  hashed_password : String
  is_active : Bool
  is_superuser : Bool
  is_verified : Bool
  username : String
deriving DecidableEq, Repr

/-- A stored row of `TortoiseBaseOAuthAccountModel`, together with the
foreign key `user_id` to the owning user row (the `user=model` argument). -/
structure OAuthRow where
  id : Nat
  oauth_name : String
  access_token : String
  expires_at : Option Int
  refresh_token : Option String
  account_id : String
  account_email : String
  user_id : Nat
deriving DecidableEq, Repr

/-- The backing relational store: all user rows and all OAuth-account rows,
in insertion order (the order an unordered query yields them). -/
structure DBState where
  users : List UserRow
  oauth : List OAuthRow
deriving DecidableEq, Repr

/-- Construction-time configuration of `TortoiseUserDatabase`:
`oauth_account_model = true` models `oauth_account_model is not None`. -/
structure TortoiseUserDatabase where
  oauth_account_model : Bool
deriving DecidableEq, Repr

/-- Errors the ORM's `.get(...)` query can raise. -/
inductive OrmError where
  | doesNotExist
  | multipleObjectsReturned
deriving DecidableEq, Repr

instance {ε α : Type} [DecidableEq ε] [DecidableEq α] :
    DecidableEq (Except ε α) := fun a b =>
  match a, b with
  | .ok x, .ok y =>
      if h : x = y then .isTrue (by rw [h]) else .isFalse (by simp [h])
  | .error e, .error f =>
      if h : e = f then .isTrue (by rw [h]) else .isFalse (by simp [h])
  | .ok _, .error _ => .isFalse (by simp)
  | .error _, .ok _ => .isFalse (by simp)

/-- ASCII lowercasing of one character, as the ORM's `__iexact` lookup
compares letters. -/
def lowerChar (c : Char) : Char :=
  if 65 ≤ c.toNat ∧ c.toNat ≤ 90 then Char.ofNat (c.toNat + 32) else c

/-- Lowercase a string character-wise (the `__iexact` comparison key). -/
def lowerStr (s : String) : String :=
  ⟨s.data.map lowerChar⟩

/-- `self.model.get(id=id)`: raises `DoesNotExist` when no row matches and
`MultipleObjectsReturned` when several do. -/
def ormGetUser (s : DBState) (id : Nat) : Except OrmError UserRow :=
  match s.users.filter (fun r => r.id == id) with
  | [] => .error .doesNotExist
  | [r] => .ok r
  | _ => .error .multipleObjectsReturned

/-- Convert a stored OAuth row back to its pydantic representation
(dropping the foreign key), as `from_tortoise_orm` serialises it. -/
def rowToAccount (a : OAuthRow) : OAuthAccount :=
  { id := a.id, oauth_name := a.oauth_name, access_token := a.access_token,
    expires_at := a.expires_at, refresh_token := a.refresh_token,
    account_id := a.account_id, account_email := a.account_email }

/-- Build a stored OAuth row from its pydantic representation linked to
`uid` (`self.oauth_account_model(user=model, **oauth_account)`). -/
def accountToRow (uid : Nat) (a : OAuthAccount) : OAuthRow :=
  { id := a.id, oauth_name := a.oauth_name, access_token := a.access_token,
    expires_at := a.expires_at, refresh_token := a.refresh_token,
    account_id := a.account_id, account_email := a.account_email,
    user_id := uid }

/-- The OAuth rows among `rows` linked to user `uid`, in storage order
(what `prefetch_related("oauth_accounts")` loads). -/
def linkedAccounts (rows : List OAuthRow) (uid : Nat) : List OAuthAccount :=
  (rows.filter (fun a => a.user_id == uid)).map rowToAccount

/-- `user_db_model.from_tortoise_orm(user)`: serialise a stored row to the
pydantic user model.  The `oauth_accounts` field is present (and filled from
the prefetched relation) exactly when the store was configured with an
OAuth account model. -/
def from_tortoise_orm (db : TortoiseUserDatabase) (s : DBState)
    (r : UserRow) : UserRecord :=
  { id := r.id, email := r.email, hashed_password := r.hashed_password,
    is_active := r.is_active, is_superuser := r.is_superuser,
    is_verified := r.is_verified, username := r.username,
    oauth_accounts :=
      if db.oauth_account_model then some (linkedAccounts s.oauth r.id)
      else none }

/-- The user row built from `self.model(**user_dict)` in `create`. -/
def rowOfRecord (user : UserRecord) : UserRow :=
  { id := user.id, email := user.email,
    hashed_password := user.hashed_password, is_active := user.is_active,
    is_superuser := user.is_superuser, is_verified := user.is_verified,
    username := user.username }

/-- Python truthiness of the popped `oauth_accounts` value: truthy iff it
is a list and that list is non-empty. -/
def truthy (l : Option (List OAuthAccount)) : Bool :=
  match l with
  | none => false
  | some xs => !xs.isEmpty

/-- `TortoiseUserDatabase.get`: look up by id, prefetching the OAuth
relation when configured; `DoesNotExist` is caught and turned into `none`,
any other ORM error propagates. -/
def get (db : TortoiseUserDatabase) (s : DBState) (id : Nat) :
    Except OrmError (Option UserRecord) :=
  match ormGetUser s id with
  | .ok user => .ok (some (from_tortoise_orm db s user))
  | .error .doesNotExist => .ok none
  | .error e => .error e

/-- `TortoiseUserDatabase.get_by_email`:
`self.model.filter(email__iexact=email).first()`, then serialise, or
`none` when nothing matches.  Never raises. -/
def get_by_email (db : TortoiseUserDatabase) (s : DBState)
    (email : String) : Option UserRecord :=
  match (s.users.filter (fun r => lowerStr r.email == lowerStr email)).head? with
  | none => none
  | some user => some (from_tortoise_orm db s user)

/-- `TortoiseUserDatabase.get_by_username`: same as `get_by_email`, keyed
on `username`. -/
def get_by_username (db : TortoiseUserDatabase) (s : DBState)
    (username : String) : Option UserRecord :=
  match (s.users.filter
      (fun r => lowerStr r.username == lowerStr username)).head? with
  | none => none
  | some user => some (from_tortoise_orm db s user)

/-- Does user row `r` own an OAuth row matching `(oauth, account_id)`
exactly (the join condition of `get_by_oauth_account`)? -/
def hasOAuthMatch (s : DBState) (r : UserRow) (oauth account_id : String) :
    Bool :=
  s.oauth.any (fun a =>
    a.user_id == r.id && a.oauth_name == oauth && a.account_id == account_id)

/-- `TortoiseUserDatabase.get_by_oauth_account`:
`self.model.get(oauth_accounts__oauth_name=..., oauth_accounts__account_id=...)`
with the relation prefetched; `DoesNotExist` is caught and turned into
`none`. -/
def get_by_oauth_account (db : TortoiseUserDatabase) (s : DBState)
    (oauth account_id : String) : Except OrmError (Option UserRecord) :=
  match s.users.filter (fun r => hasOAuthMatch s r oauth account_id) with
  | [] => .ok none
  | [user] => .ok (some (from_tortoise_orm db s user))
  | _ => .error .multipleObjectsReturned

/-- `TortoiseUserDatabase.create`: pop `oauth_accounts` from the dict, save
the user row, and — only when the popped value is truthy AND an OAuth model
was configured — bulk-insert the linked rows.  Returns the input record as
given. -/
def create (db : TortoiseUserDatabase) (s : DBState) (user : UserRecord) :
    DBState × UserRecord :=
  let oauth_accounts := user.oauth_accounts
  let model := rowOfRecord user
  let s1 : DBState := { s with users := s.users ++ [model] }
  let s2 : DBState :=
    if truthy oauth_accounts && db.oauth_account_model then
      { s1 with
        oauth := s1.oauth ++
          (oauth_accounts.getD []).map (accountToRow model.id) }
    else s1
  (s2, user)

/-- The row written back by `update`'s field loop: every field of the input
record except the popped primary key. -/
def updatedRow (model : UserRow) (user : UserRecord) : UserRow :=
  { id := model.id, email := user.email,
    hashed_password := user.hashed_password, is_active := user.is_active,
    is_superuser := user.is_superuser, is_verified := user.is_verified,
    username := user.username }

/-- `TortoiseUserDatabase.update`: load the row by id (`DoesNotExist`
propagates uncaught), overwrite every non-id field and save; then — only
when the popped `oauth_accounts` is truthy AND an OAuth model was
configured — delete all linked OAuth rows and bulk-insert the new set.
Returns the input record as given. -/
def update (db : TortoiseUserDatabase) (s : DBState) (user : UserRecord) :
    Except OrmError (DBState × UserRecord) := do
  let oauth_accounts := user.oauth_accounts
  let model ← ormGetUser s user.id
  let model' := updatedRow model user
  let s1 : DBState :=
    { s with users := s.users.map (fun r => if r.id = user.id then model' else r) }
  let s2 : DBState :=
    if truthy oauth_accounts && db.oauth_account_model then
      { s1 with
        oauth := (s1.oauth.filter (fun a => a.user_id != user.id)) ++
          (oauth_accounts.getD []).map (accountToRow user.id) }
    else s1
  return (s2, user)

/-- `TortoiseUserDatabase.delete`: `self.model.filter(id=user.id).delete()`
— remove every user row with the record's identifier; never raises. -/
def delete (db : TortoiseUserDatabase) (s : DBState) (user : UserRecord) :
    DBState :=
  { s with users := s.users.filter (fun r => r.id != user.id) }

/-! ## Helper lemmas -/

theorem ormGetUser_of_absent (s : DBState) (i : Nat)
    (h : ∀ r ∈ s.users, r.id ≠ i) :
    ormGetUser s i = .error .doesNotExist := by
  unfold ormGetUser
  have hnil : s.users.filter (fun r => r.id == i) = [] := by
    rw [List.filter_eq_nil_iff]
    intro a ha
    simpa using h a ha
  rw [hnil]

theorem ormGetUser_of_single (s : DBState) (i : Nat) (m : UserRow)
    (h : s.users.filter (fun r => r.id == i) = [m]) :
    ormGetUser s i = .ok m := by
  unfold ormGetUser
  rw [h]

/-- The head of a filtered list is its designated member when that member
satisfies the predicate and is the only member of the list that does. -/
theorem filter_head_unique {α : Type} (p : α → Bool) (l : List α) (r : α)
    (hmem : r ∈ l) (hp : p r = true)
    (huniq : ∀ x ∈ l, p x = true → x = r) :
    (l.filter p).head? = some r := by
  induction l with
  | nil => cases hmem
  | cons a l ih =>
    by_cases h : p a = true
    · have ha : a = r := huniq a (List.mem_cons_self a l) h
      simp [List.filter_cons, h, ha, hp]
    · have hr : r ∈ l := by
        rcases List.mem_cons.mp hmem with rfl | hr
        · exact absurd hp h
        · exact hr
      simp only [List.filter_cons, h, if_false]
      exact ih hr (fun x hx hpx => huniq x (List.mem_cons_of_mem a hx) hpx)

/-- The head of a filtered list is the first member satisfying the
predicate. -/
theorem filter_head_eq_find {α : Type} (p : α → Bool) (l : List α) :
    (l.filter p).head? = l.find? p := by
  induction l with
  | nil => rfl
  | cons a l ih =>
    by_cases h : p a = true <;>
      simp [List.filter_cons, List.find?_cons, h, ih]

theorem rowToAccount_accountToRow (uid : Nat) (a : OAuthAccount) :
    rowToAccount (accountToRow uid a) = a := rfl

/-- Writing back the updated row leaves, among the rows keyed by `i`,
exactly one copy of the updated row per previous match. -/
theorem filter_map_writeback (l : List UserRow) (i : Nat) (m' : UserRow)
    (hm' : m'.id = i) :
    ((l.map (fun r => if r.id = i then m' else r)).filter
        (fun r => r.id == i)) =
      List.replicate (l.filter (fun r => r.id == i)).length m' := by
  induction l with
  | nil => rfl
  | cons a l ih =>
    by_cases h : a.id = i
    · simp [List.filter_cons, h, hm', ih, List.replicate_succ]
    · simp [List.filter_cons, h, ih]

/-- No rows of `rows` belong to `uid`: the linked set is empty. -/
theorem linkedAccounts_absent (rows : List OAuthRow) (uid : Nat)
    (hold : ∀ a ∈ rows, a.user_id ≠ uid) :
    linkedAccounts rows uid = [] := by
  unfold linkedAccounts
  have h1 : rows.filter (fun a => a.user_id == uid) = [] := by
    rw [List.filter_eq_nil_iff]
    intro a ha
    simpa using hold a ha
  rw [h1]
  rfl

/-- The accounts linked to `uid` after appending a freshly inserted batch
for `uid` to rows none of which belong to `uid`. -/
theorem linkedAccounts_insert (oldRows : List OAuthRow) (uid : Nat)
    (l : List OAuthAccount) (hold : ∀ a ∈ oldRows, a.user_id ≠ uid) :
    linkedAccounts (oldRows ++ l.map (accountToRow uid)) uid = l := by
  unfold linkedAccounts
  rw [List.filter_append]
  have h1 : oldRows.filter (fun a => a.user_id == uid) = [] := by
    rw [List.filter_eq_nil_iff]
    intro a ha
    simpa using hold a ha
  have h2 : (l.map (accountToRow uid)).filter (fun a => a.user_id == uid) =
      l.map (accountToRow uid) := by
    rw [List.filter_eq_self]
    intro a ha
    rcases List.mem_map.mp ha with ⟨b, _, rfl⟩
    simp [accountToRow]
  rw [h1, h2, List.nil_append, List.map_map]
  have hcomp : rowToAccount ∘ accountToRow uid = id := funext fun a => rfl
  rw [hcomp, List.map_id]

/-- The state produced by `create`, written out explicitly. -/
theorem create_state (db : TortoiseUserDatabase) (s : DBState)
    (user : UserRecord) :
    (create db s user).1 =
      { users := s.users ++ [rowOfRecord user],
        oauth :=
          if truthy user.oauth_accounts && db.oauth_account_model then
            s.oauth ++ (user.oauth_accounts.getD []).map
              (accountToRow user.id)
          else s.oauth } := by
  unfold create
  dsimp only
  split <;> rfl

/-- After `create`, the new row is the unique row keyed by the record's id,
provided that id was fresh. -/
theorem ormGetUser_after_create (db : TortoiseUserDatabase) (s : DBState)
    (user : UserRecord) (hid : ∀ r ∈ s.users, r.id ≠ user.id) :
    ormGetUser (create db s user).1 user.id = .ok (rowOfRecord user) := by
  apply ormGetUser_of_single
  rw [create_state]
  show (s.users ++ [rowOfRecord user]).filter (fun r => r.id == user.id) = _
  rw [List.filter_append]
  have h1 : s.users.filter (fun r => r.id == user.id) = [] := by
    rw [List.filter_eq_nil_iff]
    intro a ha
    simpa using hid a ha
  have h2 : [rowOfRecord user].filter (fun r => r.id == user.id) =
      [rowOfRecord user] := by
    simp [rowOfRecord]
  rw [h1, h2, List.nil_append]

/-- Evaluation of `update` once the row lookup has succeeded, with both
branches of the identity-handling condition written out. -/
theorem update_eval (db : TortoiseUserDatabase) (s : DBState)
    (user : UserRecord) (m : UserRow)
    (hm : ormGetUser s user.id = .ok m) :
    update db s user =
      .ok
        (if truthy user.oauth_accounts && db.oauth_account_model then
          { users := s.users.map
              (fun r => if r.id = user.id then updatedRow m user else r),
            oauth := (s.oauth.filter (fun a => a.user_id != user.id)) ++
              (user.oauth_accounts.getD []).map (accountToRow user.id) }
        else
          { users := s.users.map
              (fun r => if r.id = user.id then updatedRow m user else r),
            oauth := s.oauth },
        user) := by
  unfold update
  rw [hm]
  dsimp only
  by_cases hc : (truthy user.oauth_accounts && db.oauth_account_model) = true
  · rw [hc]
    rfl
  · rw [Bool.not_eq_true] at hc
    rw [hc]
    rfl

/-! ## Claims -/

/-- C2: for every key that matches no stored record, each of `get`,
`get_by_email`, `get_by_username` and `get_by_oauth_account` returns an
empty result (`none`) and never raises: the `DoesNotExist` outcome of the
two `.get(...)`-based lookups is caught, and the two `.first()`-based
lookups have no raising path at all. -/
theorem lookups_on_absent_key_return_none
    (db : TortoiseUserDatabase) (s : DBState) (i : Nat)
    (e un pn aid : String)
    (hid : ∀ r ∈ s.users, r.id ≠ i)
    (hemail : ∀ r ∈ s.users, lowerStr r.email ≠ lowerStr e)
    (husername : ∀ r ∈ s.users, lowerStr r.username ≠ lowerStr un)
    (hoauth : ∀ r ∈ s.users, hasOAuthMatch s r pn aid = false) :
    get db s i = .ok none ∧
    get_by_email db s e = none ∧
    get_by_username db s un = none ∧
    get_by_oauth_account db s pn aid = .ok none := by
  refine ⟨?_, ?_, ?_, ?_⟩
  · unfold get
    rw [ormGetUser_of_absent s i hid]
  · unfold get_by_email
    have hnil : s.users.filter (fun r => lowerStr r.email == lowerStr e) = [] := by
      rw [List.filter_eq_nil_iff]
      intro a ha
      simpa using hemail a ha
    rw [hnil]
    rfl
  · unfold get_by_username
    have hnil : s.users.filter
        (fun r => lowerStr r.username == lowerStr un) = [] := by
      rw [List.filter_eq_nil_iff]
      intro a ha
      simpa using husername a ha
    rw [hnil]
    rfl
  · unfold get_by_oauth_account
    have hnil : s.users.filter (fun r => hasOAuthMatch s r pn aid) = [] := by
      rw [List.filter_eq_nil_iff]
      intro a ha
      simp [hoauth a ha]
    rw [hnil]

/-- C2 witness: on the empty store, all four lookups return `none` for the
concrete keys. -/
theorem lookups_on_absent_key_return_none_witness :
    get ⟨true⟩ ⟨[], []⟩ 1 = .ok none ∧
    get_by_email ⟨true⟩ ⟨[], []⟩ "a@x.com" = none ∧
    get_by_username ⟨true⟩ ⟨[], []⟩ "alice" = none ∧
    get_by_oauth_account ⟨true⟩ ⟨[], []⟩ "google" "g1" = .ok none :=
  lookups_on_absent_key_return_none ⟨true⟩ ⟨[], []⟩ 1 "a@x.com" "alice"
    "google" "g1" (by simp) (by simp) (by simp) (by simp)

/-- C3: `update` on an identifier matching no stored row propagates the
storage layer's `DoesNotExist` error uncaught; the error is raised by
`self.model.get(id=user.id)` before any field is written, so the stored
state is unchanged (no successor state is produced). -/
theorem update_on_absent_id_raises
    (db : TortoiseUserDatabase) (s : DBState) (user : UserRecord)
    (h : ∀ r ∈ s.users, r.id ≠ user.id) :
    update db s user = .error .doesNotExist := by
  unfold update
  rw [ormGetUser_of_absent s user.id h]
  rfl

/-- C3 witness: updating a record with id 2 in a store holding only id 1
raises `DoesNotExist`. -/
theorem update_on_absent_id_raises_witness :
    update ⟨true⟩
      ⟨[⟨1, "a@x.com", "h", true, false, false, "alice"⟩], []⟩
      ⟨2, "b@x.com", "h2", true, false, false, "bob", none⟩ =
      .error .doesNotExist :=
  update_on_absent_id_raises ⟨true⟩
    ⟨[⟨1, "a@x.com", "h", true, false, false, "alice"⟩], []⟩
    ⟨2, "b@x.com", "h2", true, false, false, "bob", none⟩ (by decide)

/-- C4: for a valid input record (its `oauth_accounts` field is present
exactly when the store was configured with an OAuth model) whose id and
linked-account key are fresh, `create` returns the input record as given,
and `create` followed by `get(id)` returns a record with identical field
values. -/
theorem create_get_roundtrip
    (db : TortoiseUserDatabase) (s : DBState) (user : UserRecord)
    (hid : ∀ r ∈ s.users, r.id ≠ user.id)
    (hoa : ∀ a ∈ s.oauth, a.user_id ≠ user.id)
    (hvalid : user.oauth_accounts.isSome = db.oauth_account_model) :
    (create db s user).2 = user ∧
    get db (create db s user).1 user.id = .ok (some user) := by
  refine ⟨rfl, ?_⟩
  suffices h : from_tortoise_orm db (create db s user).1 (rowOfRecord user)
      = user by
    unfold get
    rw [ormGetUser_after_create db s user hid]
    show Except.ok (some (from_tortoise_orm db (create db s user).1
      (rowOfRecord user))) = Except.ok (some user)
    rw [h]
  rw [create_state]
  obtain ⟨oam⟩ := db
  obtain ⟨uid, ue, uh, ua, us, uv, un, uo⟩ := user
  have hoa' : ∀ a ∈ s.oauth, a.user_id ≠ uid := hoa
  cases oam with
  | false =>
    cases uo with
    | none => rfl
    | some l => simp at hvalid
  | true =>
    cases uo with
    | none => simp at hvalid
    | some l =>
      cases l with
      | nil =>
        show (⟨uid, ue, uh, ua, us, uv, un,
            some (linkedAccounts s.oauth uid)⟩ : UserRecord) =
          ⟨uid, ue, uh, ua, us, uv, un, some []⟩
        rw [linkedAccounts_absent s.oauth uid hoa']
      | cons b bs =>
        show (⟨uid, ue, uh, ua, us, uv, un,
            some (linkedAccounts
              (s.oauth ++ (b :: bs).map (accountToRow uid)) uid)⟩ :
              UserRecord) =
          ⟨uid, ue, uh, ua, us, uv, un, some (b :: bs)⟩
        rw [linkedAccounts_insert s.oauth uid (b :: bs) hoa']

/-- C4 witness: creating a fresh user (with one linked OAuth account) on
the empty store and reading it back by id yields the identical record. -/
theorem create_get_roundtrip_witness :
    (∀ r ∈ (⟨[], []⟩ : DBState).users, r.id ≠ 1) ∧
    (create ⟨true⟩ ⟨[], []⟩
        ⟨1, "A@x.com", "h", true, false, false, "alice",
          some [⟨10, "google", "t", none, none, "g1", "a@x.com"⟩]⟩).2 =
      ⟨1, "A@x.com", "h", true, false, false, "alice",
        some [⟨10, "google", "t", none, none, "g1", "a@x.com"⟩]⟩ ∧
    get ⟨true⟩
        (create ⟨true⟩ ⟨[], []⟩
          ⟨1, "A@x.com", "h", true, false, false, "alice",
            some [⟨10, "google", "t", none, none, "g1", "a@x.com"⟩]⟩).1 1 =
      .ok (some ⟨1, "A@x.com", "h", true, false, false, "alice",
        some [⟨10, "google", "t", none, none, "g1", "a@x.com"⟩]⟩) :=
  ⟨by simp,
   (create_get_roundtrip ⟨true⟩ ⟨[], []⟩
      ⟨1, "A@x.com", "h", true, false, false, "alice",
        some [⟨10, "google", "t", none, none, "g1", "a@x.com"⟩]⟩
      (by simp) (by simp) (by decide)).1,
   (create_get_roundtrip ⟨true⟩ ⟨[], []⟩
      ⟨1, "A@x.com", "h", true, false, false, "alice",
        some [⟨10, "google", "t", none, none, "g1", "a@x.com"⟩]⟩
      (by simp) (by simp) (by decide)).2⟩

/-- C5: `get_by_email` matches the stored email case-insensitively but
exactly otherwise, and `get_by_username` behaves the same keyed on
username: under the spec's uniqueness invariant (no other stored record
shares the case-folded email resp. username), any query key equal to the
stored value up to letter case returns that stored record (serialised). -/
theorem get_by_email_username_case_insensitive
    (db : TortoiseUserDatabase) (s : DBState) (r : UserRow) (e un : String)
    (hmem : r ∈ s.users)
    (hue : ∀ x ∈ s.users, lowerStr x.email = lowerStr r.email → x = r)
    (hun : ∀ x ∈ s.users, lowerStr x.username = lowerStr r.username → x = r)
    (he : lowerStr e = lowerStr r.email)
    (hn : lowerStr un = lowerStr r.username) :
    get_by_email db s e = some (from_tortoise_orm db s r) ∧
    get_by_username db s un = some (from_tortoise_orm db s r) := by
  constructor
  · unfold get_by_email
    rw [filter_head_unique (fun x => lowerStr x.email == lowerStr e)
      s.users r hmem (by simp [he])
      (fun x hx hpx => hue x hx (by rw [he] at hpx; simpa using hpx))]
  · unfold get_by_username
    rw [filter_head_unique (fun x => lowerStr x.username == lowerStr un)
      s.users r hmem (by simp [hn])
      (fun x hx hpx => hun x hx (by rw [hn] at hpx; simpa using hpx))]

/-- C5 witness: the spec's scenario — create `{id: 1, email: "A@x.com",
username: "alice"}`, then `get_by_email "a@x.com"` (and
`get_by_username "ALICE"`) return that user. -/
theorem get_by_email_username_case_insensitive_witness :
    get_by_email ⟨false⟩
        ⟨[⟨1, "A@x.com", "h", true, false, false, "alice"⟩], []⟩
        "a@x.com" =
      some (from_tortoise_orm ⟨false⟩
        ⟨[⟨1, "A@x.com", "h", true, false, false, "alice"⟩], []⟩
        ⟨1, "A@x.com", "h", true, false, false, "alice"⟩) ∧
    get_by_username ⟨false⟩
        ⟨[⟨1, "A@x.com", "h", true, false, false, "alice"⟩], []⟩
        "ALICE" =
      some (from_tortoise_orm ⟨false⟩
        ⟨[⟨1, "A@x.com", "h", true, false, false, "alice"⟩], []⟩
        ⟨1, "A@x.com", "h", true, false, false, "alice"⟩) :=
  get_by_email_username_case_insensitive ⟨false⟩
    ⟨[⟨1, "A@x.com", "h", true, false, false, "alice"⟩], []⟩
    ⟨1, "A@x.com", "h", true, false, false, "alice"⟩ "a@x.com" "ALICE"
    (by decide) (by decide) (by decide) (by decide) (by decide)

/-- C10: when several stored records match the email (resp. username)
case-insensitively, `get_by_email` (resp. `get_by_username`) returns the
first match of the query result — it does not raise and does not return
empty; uniqueness is relied upon, never verified. -/
theorem get_by_email_username_first_match
    (db : TortoiseUserDatabase) (s : DBState) (e un : String)
    (r r2 q q2 : UserRow)
    (hfind : s.users.find? (fun x => lowerStr x.email == lowerStr e) =
      some r)
    (hmem2 : r2 ∈ s.users) (hne2 : r2 ≠ r)
    (hmatch2 : lowerStr r2.email = lowerStr e)
    (hfindu : s.users.find? (fun x => lowerStr x.username == lowerStr un) =
      some q)
    (hmemq2 : q2 ∈ s.users) (hneq2 : q2 ≠ q)
    (hmatchq2 : lowerStr q2.username = lowerStr un) :
    get_by_email db s e = some (from_tortoise_orm db s r) ∧
    get_by_username db s un = some (from_tortoise_orm db s q) := by
  constructor
  · unfold get_by_email
    rw [filter_head_eq_find, hfind]
  · unfold get_by_username
    rw [filter_head_eq_find, hfindu]

/-- C10 witness: two stored users share the case-folded email
`"a@x.com"` and the case-folded username `"alice"`; both lookups return
the first stored user. -/
theorem get_by_email_username_first_match_witness :
    get_by_email ⟨false⟩
        ⟨[⟨1, "A@x.com", "h", true, false, false, "alice"⟩,
          ⟨2, "a@x.com", "h2", true, false, false, "ALICE"⟩], []⟩
        "a@X.com" =
      some (from_tortoise_orm ⟨false⟩
        ⟨[⟨1, "A@x.com", "h", true, false, false, "alice"⟩,
          ⟨2, "a@x.com", "h2", true, false, false, "ALICE"⟩], []⟩
        ⟨1, "A@x.com", "h", true, false, false, "alice"⟩) ∧
    get_by_username ⟨false⟩
        ⟨[⟨1, "A@x.com", "h", true, false, false, "alice"⟩,
          ⟨2, "a@x.com", "h2", true, false, false, "ALICE"⟩], []⟩
        "Alice" =
      some (from_tortoise_orm ⟨false⟩
        ⟨[⟨1, "A@x.com", "h", true, false, false, "alice"⟩,
          ⟨2, "a@x.com", "h2", true, false, false, "ALICE"⟩], []⟩
        ⟨1, "A@x.com", "h", true, false, false, "alice"⟩) :=
  get_by_email_username_first_match ⟨false⟩
    ⟨[⟨1, "A@x.com", "h", true, false, false, "alice"⟩,
      ⟨2, "a@x.com", "h2", true, false, false, "ALICE"⟩], []⟩
    "a@X.com" "Alice"
    ⟨1, "A@x.com", "h", true, false, false, "alice"⟩
    ⟨2, "a@x.com", "h2", true, false, false, "ALICE"⟩
    ⟨1, "A@x.com", "h", true, false, false, "alice"⟩
    ⟨2, "a@x.com", "h2", true, false, false, "ALICE"⟩
    (by decide) (by decide) (by decide) (by decide)
    (by decide) (by decide) (by decide) (by decide)

/-- C6: after `delete` is called with a record bearing an identifier, a
subsequent `get` of that identifier returns an empty result — the row
filter removed every row with that id. -/
theorem get_after_delete_returns_none
    (db : TortoiseUserDatabase) (s : DBState) (user : UserRecord) :
    get db (delete db s user) user.id = .ok none := by
  unfold get
  have habs : ∀ r ∈ (delete db s user).users, r.id ≠ user.id := by
    intro r hr
    have := (List.mem_filter.mp hr).2
    simpa using this
  rw [ormGetUser_of_absent _ _ habs]

/-- C7: `delete` raises no error on an absent identifier (it is a total
function), leaves the state unchanged there, and is idempotent in
general. -/
theorem delete_absent_noop_and_idempotent
    (db : TortoiseUserDatabase) (s : DBState) (user : UserRecord) :
    ((∀ r ∈ s.users, r.id ≠ user.id) → delete db s user = s) ∧
    delete db (delete db s user) user = delete db s user := by
  constructor
  · intro h
    unfold delete
    have hself : s.users.filter (fun r => r.id != user.id) = s.users := by
      rw [List.filter_eq_self]
      intro a ha
      simpa using h a ha
    cases s
    simp_all
  · unfold delete
    simp [List.filter_filter]

/-- C7 witness: deleting id 2 from a store holding only id 1 changes
nothing, and deleting twice equals deleting once. -/
theorem delete_absent_noop_and_idempotent_witness :
    delete ⟨true⟩ ⟨[⟨1, "a@x.com", "h", true, false, false, "alice"⟩], []⟩
        ⟨2, "b@x.com", "h2", true, false, false, "bob", none⟩ =
      ⟨[⟨1, "a@x.com", "h", true, false, false, "alice"⟩], []⟩ ∧
    delete ⟨true⟩
        (delete ⟨true⟩
          ⟨[⟨1, "a@x.com", "h", true, false, false, "alice"⟩], []⟩
          ⟨2, "b@x.com", "h2", true, false, false, "bob", none⟩)
        ⟨2, "b@x.com", "h2", true, false, false, "bob", none⟩ =
      delete ⟨true⟩
        ⟨[⟨1, "a@x.com", "h", true, false, false, "alice"⟩], []⟩
        ⟨2, "b@x.com", "h2", true, false, false, "bob", none⟩ :=
  ⟨(delete_absent_noop_and_idempotent ⟨true⟩
      ⟨[⟨1, "a@x.com", "h", true, false, false, "alice"⟩], []⟩
      ⟨2, "b@x.com", "h2", true, false, false, "bob", none⟩).1 (by decide),
   (delete_absent_noop_and_idempotent ⟨true⟩
      ⟨[⟨1, "a@x.com", "h", true, false, false, "alice"⟩], []⟩
      ⟨2, "b@x.com", "h2", true, false, false, "bob", none⟩).2⟩

/-- C8: on a store constructed without an OAuth account model, `create`
and `update` called with a record carrying a non-empty identity set
silently skip all identity handling — no identity rows are written or
deleted and no error is raised — while the user row itself is still
persisted (inserted resp. overwritten). -/
theorem no_oauth_model_skips_identity_handling
    (db : TortoiseUserDatabase) (s : DBState) (user : UserRecord)
    (m : UserRow)
    (hdb : db.oauth_account_model = false)
    (hcarries : truthy user.oauth_accounts = true)
    (hm : ormGetUser s user.id = .ok m) :
    (create db s user).1.users = s.users ++ [rowOfRecord user] ∧
    (create db s user).1.oauth = s.oauth ∧
    (create db s user).2 = user ∧
    update db s user =
      .ok ({ users := s.users.map
               (fun r => if r.id = user.id then updatedRow m user else r),
             oauth := s.oauth }, user) := by
  refine ⟨?_, ?_, rfl, ?_⟩
  · rw [create_state]
  · rw [create_state]
    simp [hdb]
  · rw [update_eval db s user m hm]
    simp [hdb]

/-- C8 witness: on a store without an OAuth model, creating and updating a
user whose record carries one OAuth account touches no OAuth row (the
pre-existing OAuth row survives and nothing is inserted). -/
theorem no_oauth_model_skips_identity_handling_witness :
    (create ⟨false⟩
        ⟨[⟨1, "a@x.com", "h", true, false, false, "alice"⟩],
         [⟨9, "github", "t0", none, none, "x", "e@x.com", 1⟩]⟩
        ⟨1, "b@x.com", "h2", false, true, true, "al",
          some [⟨10, "google", "t", none, none, "g1", "a@x.com"⟩]⟩).1.users =
      [⟨1, "a@x.com", "h", true, false, false, "alice"⟩] ++
        [rowOfRecord ⟨1, "b@x.com", "h2", false, true, true, "al",
          some [⟨10, "google", "t", none, none, "g1", "a@x.com"⟩]⟩] ∧
    (create ⟨false⟩
        ⟨[⟨1, "a@x.com", "h", true, false, false, "alice"⟩],
         [⟨9, "github", "t0", none, none, "x", "e@x.com", 1⟩]⟩
        ⟨1, "b@x.com", "h2", false, true, true, "al",
          some [⟨10, "google", "t", none, none, "g1", "a@x.com"⟩]⟩).1.oauth =
      [⟨9, "github", "t0", none, none, "x", "e@x.com", 1⟩] ∧
    (create ⟨false⟩
        ⟨[⟨1, "a@x.com", "h", true, false, false, "alice"⟩],
         [⟨9, "github", "t0", none, none, "x", "e@x.com", 1⟩]⟩
        ⟨1, "b@x.com", "h2", false, true, true, "al",
          some [⟨10, "google", "t", none, none, "g1", "a@x.com"⟩]⟩).2 =
      ⟨1, "b@x.com", "h2", false, true, true, "al",
        some [⟨10, "google", "t", none, none, "g1", "a@x.com"⟩]⟩ ∧
    update ⟨false⟩
        ⟨[⟨1, "a@x.com", "h", true, false, false, "alice"⟩],
         [⟨9, "github", "t0", none, none, "x", "e@x.com", 1⟩]⟩
        ⟨1, "b@x.com", "h2", false, true, true, "al",
          some [⟨10, "google", "t", none, none, "g1", "a@x.com"⟩]⟩ =
      .ok (⟨[⟨1, "a@x.com", "h", true, false, false, "alice"⟩].map
              (fun r => if r.id = 1 then
                updatedRow ⟨1, "a@x.com", "h", true, false, false, "alice"⟩
                  ⟨1, "b@x.com", "h2", false, true, true, "al",
                    some [⟨10, "google", "t", none, none, "g1", "a@x.com"⟩]⟩
                else r),
            [⟨9, "github", "t0", none, none, "x", "e@x.com", 1⟩]⟩,
           ⟨1, "b@x.com", "h2", false, true, true, "al",
             some [⟨10, "google", "t", none, none, "g1", "a@x.com"⟩]⟩) :=
  no_oauth_model_skips_identity_handling ⟨false⟩
    ⟨[⟨1, "a@x.com", "h", true, false, false, "alice"⟩],
     [⟨9, "github", "t0", none, none, "x", "e@x.com", 1⟩]⟩
    ⟨1, "b@x.com", "h2", false, true, true, "al",
      some [⟨10, "google", "t", none, none, "g1", "a@x.com"⟩]⟩
    ⟨1, "a@x.com", "h", true, false, false, "alice"⟩
    rfl (by decide) (by decide)

/-- C9: on a store with OAuth support enabled, `update` with an identity
set that is present but empty leaves the stored OAuth rows completely
untouched — the empty list is falsy, so it is treated like an absent set
and the replace step is skipped; the linked set cannot be cleared through
`update`. -/
theorem update_empty_identity_set_leaves_rows
    (db : TortoiseUserDatabase) (s : DBState) (user : UserRecord)
    (m : UserRow)
    (hdb : db.oauth_account_model = true)
    (hempty : user.oauth_accounts = some [])
    (hm : ormGetUser s user.id = .ok m) :
    update db s user =
      .ok ({ users := s.users.map
               (fun r => if r.id = user.id then updatedRow m user else r),
             oauth := s.oauth }, user) := by
  rw [update_eval db s user m hm]
  have hc : truthy user.oauth_accounts = false := by
    rw [hempty]
    rfl
  simp [hc]

/-- C9 witness: with OAuth enabled, updating a user that owns one OAuth
row with `oauth_accounts = some []` keeps that row in place. -/
theorem update_empty_identity_set_leaves_rows_witness :
    update ⟨true⟩
        ⟨[⟨1, "a@x.com", "h", true, false, false, "alice"⟩],
         [⟨10, "google", "t", none, none, "g1", "a@x.com", 1⟩]⟩
        ⟨1, "b@x.com", "h2", true, false, false, "alice", some []⟩ =
      .ok (⟨[⟨1, "a@x.com", "h", true, false, false, "alice"⟩].map
              (fun r => if r.id = 1 then
                updatedRow ⟨1, "a@x.com", "h", true, false, false, "alice"⟩
                  ⟨1, "b@x.com", "h2", true, false, false, "alice", some []⟩
                else r),
            [⟨10, "google", "t", none, none, "g1", "a@x.com", 1⟩]⟩,
           ⟨1, "b@x.com", "h2", true, false, false, "alice", some []⟩) :=
  update_empty_identity_set_leaves_rows ⟨true⟩
    ⟨[⟨1, "a@x.com", "h", true, false, false, "alice"⟩],
     [⟨10, "google", "t", none, none, "g1", "a@x.com", 1⟩]⟩
    ⟨1, "b@x.com", "h2", true, false, false, "alice", some []⟩
    ⟨1, "a@x.com", "h", true, false, false, "alice"⟩
    rfl rfl (by decide)

/-- C1 counterexample: store with OAuth enabled, one user (id 1) owning
one OAuth row, updated with a record carrying the identity set `some []`.
The claim demands the old set be deleted and `get` return exactly the new
(empty) set; instead the old row survives and `get` returns it, because
the empty list is falsy and the replace step is skipped. -/
theorem update_replace_identity_set_counterexample :
    (⟨1, "b@x.com", "h", true, false, false, "alice", some []⟩ :
        UserRecord).oauth_accounts = some [] ∧
    update ⟨true⟩
        ⟨[⟨1, "a@x.com", "h", true, false, false, "alice"⟩],
         [⟨10, "google", "t", none, none, "g1", "a@x.com", 1⟩]⟩
        ⟨1, "b@x.com", "h", true, false, false, "alice", some []⟩ =
      .ok (⟨[⟨1, "b@x.com", "h", true, false, false, "alice"⟩],
            [⟨10, "google", "t", none, none, "g1", "a@x.com", 1⟩]⟩,
           ⟨1, "b@x.com", "h", true, false, false, "alice", some []⟩) ∧
    get ⟨true⟩
        ⟨[⟨1, "b@x.com", "h", true, false, false, "alice"⟩],
         [⟨10, "google", "t", none, none, "g1", "a@x.com", 1⟩]⟩ 1 =
      .ok (some ⟨1, "b@x.com", "h", true, false, false, "alice",
        some [⟨10, "google", "t", none, none, "g1", "a@x.com"⟩]⟩) ∧
    some [(⟨10, "google", "t", none, none, "g1", "a@x.com"⟩ :
        OAuthAccount)] ≠ (some ([] : List OAuthAccount)) := by
  refine ⟨rfl, by decide, by decide, by decide⟩

/-- C1 (amended): for every store with OAuth support enabled and every
update whose input record carries a NON-EMPTY identity set, `update`
deletes the full existing set of linked OAuth rows and inserts the new
set, so a subsequent `get(id)` returns exactly the new set and not a
union with the old. -/
theorem update_replaces_nonempty_identity_set
    (db : TortoiseUserDatabase) (s : DBState) (user : UserRecord)
    (m : UserRow) (b : OAuthAccount) (bs : List OAuthAccount)
    (hdb : db.oauth_account_model = true)
    (hl : user.oauth_accounts = some (b :: bs))
    (huniq : s.users.filter (fun r => r.id == user.id) = [m]) :
    ∃ s' : DBState,
      update db s user = .ok (s', user) ∧
      linkedAccounts s'.oauth user.id = b :: bs ∧
      get db s' user.id = .ok (some user) := by
  have hm : ormGetUser s user.id = .ok m := ormGetUser_of_single _ _ _ huniq
  have hmmem : m ∈ s.users.filter (fun r => r.id == user.id) := by
    rw [huniq]
    exact List.mem_singleton.mpr rfl
  have hmid : m.id = user.id := by
    simpa using (List.mem_filter.mp hmmem).2
  have hc : (truthy user.oauth_accounts && db.oauth_account_model) = true := by
    rw [hl, hdb]
    rfl
  refine ⟨⟨s.users.map
      (fun r => if r.id = user.id then updatedRow m user else r),
    (s.oauth.filter (fun a => a.user_id != user.id)) ++
      (b :: bs).map (accountToRow user.id)⟩, ?_, ?_, ?_⟩
  · rw [update_eval db s user m hm, hc, hl]
    rfl
  · exact linkedAccounts_insert _ _ _
      (fun a ha => by simpa using (List.mem_filter.mp ha).2)
  · have hfil : (s.users.map
        (fun r => if r.id = user.id then updatedRow m user else r)).filter
          (fun r => r.id == user.id) = [updatedRow m user] := by
      have hw := filter_map_writeback s.users user.id (updatedRow m user)
        (show (updatedRow m user).id = user.id from hmid)
      rw [huniq] at hw
      rw [hw]
      rfl
    unfold get
    rw [ormGetUser_of_single _ _ _ hfil]
    suffices h : from_tortoise_orm db
        ⟨s.users.map (fun r => if r.id = user.id then updatedRow m user
            else r),
          (s.oauth.filter (fun a => a.user_id != user.id)) ++
            (b :: bs).map (accountToRow user.id)⟩
        (updatedRow m user) = user by
      exact congrArg (fun x => Except.ok (some x)) h
    obtain ⟨oam⟩ := db
    rw [show oam = true from hdb]
    obtain ⟨uid, ue, uh, ua, us, uv, un, uo⟩ := user
    rw [show uo = some (b :: bs) from hl]
    have hlinked : linkedAccounts
        ((s.oauth.filter (fun a => a.user_id != uid)) ++
          (b :: bs).map (accountToRow uid)) uid = b :: bs :=
      linkedAccounts_insert _ _ _
        (fun a ha => by simpa using (List.mem_filter.mp ha).2)
    show (⟨m.id, ue, uh, ua, us, uv, un,
        some (linkedAccounts
          ((s.oauth.filter (fun a => a.user_id != uid)) ++
            (b :: bs).map (accountToRow uid)) m.id)⟩ : UserRecord) =
      ⟨uid, ue, uh, ua, us, uv, un, some (b :: bs)⟩
    rw [show m.id = uid from hmid]
    rw [hlinked]

/-- C1 witness for the amended claim: updating user 1 (owning one old
OAuth row) with the non-empty identity set `[g2]` yields a state whose
linked set is exactly `[g2]`, and `get 1` returns the input record. -/
theorem update_replaces_nonempty_identity_set_witness :
    ∃ s' : DBState,
      update ⟨true⟩
          ⟨[⟨1, "a@x.com", "h", true, false, false, "alice"⟩],
           [⟨10, "google", "t", none, none, "g1", "a@x.com", 1⟩]⟩
          ⟨1, "a@x.com", "h", true, false, false, "alice",
            some [⟨11, "github", "t2", none, none, "g2", "a@x.com"⟩]⟩ =
        .ok (s', ⟨1, "a@x.com", "h", true, false, false, "alice",
          some [⟨11, "github", "t2", none, none, "g2", "a@x.com"⟩]⟩) ∧
      linkedAccounts s'.oauth 1 =
        [⟨11, "github", "t2", none, none, "g2", "a@x.com"⟩] ∧
      get ⟨true⟩ s' 1 =
        .ok (some ⟨1, "a@x.com", "h", true, false, false, "alice",
          some [⟨11, "github", "t2", none, none, "g2", "a@x.com"⟩]⟩) :=
  update_replaces_nonempty_identity_set ⟨true⟩
    ⟨[⟨1, "a@x.com", "h", true, false, false, "alice"⟩],
     [⟨10, "google", "t", none, none, "g1", "a@x.com", 1⟩]⟩
    ⟨1, "a@x.com", "h", true, false, false, "alice",
      some [⟨11, "github", "t2", none, none, "g2", "a@x.com"⟩]⟩
    ⟨1, "a@x.com", "h", true, false, false, "alice"⟩
    ⟨11, "github", "t2", none, none, "g2", "a@x.com"⟩ []
    rfl rfl (by decide)

end FastAPIUsers
